import Mathlib

/-!
Verification of the orion excerpt: the plotting dispatch accessor
(src/orion/plotting/base.py) and the CLI plugin registration loop
(src/orion/core/cli/db_main.py).

The plotting module wraps four module-level functions (lpi,
parallel_coordinates, partial_dependencies, regret), each of which only
forwards to the external plotly backend; they are abstracted here as the
four fields of `Handlers`.  The dispatch table `PLOT_METHODS`, the
accessor construction, the keyword-argument dictionary manipulation and
the dispatch logic of `PlotAccessor.__call__` are embedded directly from
the source.  Python keyword dictionaries are association lists with
distinct keys; `dict.pop` and `dict.__getitem__` are embedded as
first-match operations on those lists.  Python exceptions become an
explicit error type, and the mutable `self` of a method becomes explicit
state passing (the method returns the resulting accessor next to its
value).
-/

/-- Embedding of a Python value appearing as a keyword-argument value:
either a string (the only case the dispatch code inspects) or some other
opaque object drawn from a parameter type. -/
inductive Val (α : Type) where
  | str (s : String)
  | other (a : α)
deriving DecidableEq

/-- Keyword arguments of a call: an association list from argument name
to value.  A Python dict never holds the same key twice, so theorems that
depend on uniqueness assume the key list is duplicate free. -/
def Kwargs (α : Type) : Type := List (String × Val α)

/-- Python str() of a value, as used by an f-string: a str renders as
itself; other objects render through the supplied renderer. -/
def Val.pyStr {α : Type} (render : α → String) : Val α → String
  | .str s => s
  | .other a => render a

/-- Equality test between a candidate dispatch key and a string key of
the table, as Python == between a dict key probe and a str key. -/
def keyMatches {α : Type} (kind : Val α) (key : String) : Bool :=
  match kind with
  | .str s => s == key
  | .other _ => false

/-- Embedding of kwargs.pop(key, dflt): remove the first binding of the
key and return its value, or return the default and leave the list
unchanged when the key is absent. -/
def dictPop {α : Type} (key : String) (dflt : Val α) : Kwargs α → Val α × Kwargs α
  | [] => (dflt, [])
  | (k, v) :: rest =>
      if k == key then (v, rest)
      else
        let p := dictPop key dflt rest
        (p.1, (k, v) :: p.2)

/-- Embedding of table[kind] lookup: first entry whose string key equals
the probe value. -/
def dictGet {α β : Type} (kind : Val α) : List (String × β) → Option β
  | [] => none
  | (k, f) :: rest => if keyMatches kind k then some f else dictGet kind rest

/-- Errors raised by the plotting accessor code.  Both raise sites in the
source raise ValueError with a message; a failed dict lookup would raise
KeyError (unreachable after the membership test). -/
inductive PlotError where
  | valueError (msg : String)
  | keyError
deriving DecidableEq

/-- The four plotting operations.  In the source these are the
module-level functions lpi, parallel_coordinates, partial_dependencies
and regret, each a thin forwarding wrapper over the external plotly
backend; the excerpt never inspects their bodies, so they are the opaque
parameters of the development.  `Exp` is the experiment type, `α` the
opaque option-value type, `R` the figure type returned by the backend. -/
structure Handlers (Exp α R : Type) where
  lpi : Exp → Kwargs α → R
  parallel_coordinates : Exp → Kwargs α → R
  partial_dependencies : Exp → Kwargs α → R
  regret : Exp → Kwargs α → R

/-- Embedding of the module-level dispatch table:
PLOT_METHODS maps each operation name to its module-level function. -/
def PLOT_METHODS {Exp α R : Type} (h : Handlers Exp α R) :
    List (String × (Exp → Kwargs α → R)) :=
  [("lpi", h.lpi),
   ("parallel_coordinates", h.parallel_coordinates),
   ("partial_dependencies", h.partial_dependencies),
   ("regret", h.regret)]

/-- The accessor object: it holds the single bound experiment. -/
structure PlotAccessor (Exp : Type) where
  _experiment : Exp
deriving DecidableEq

/-- Embedding of PlotAccessor.__init__: raise
ValueError("Parameter 'experiment' is None") when the argument is falsy,
otherwise store it in self._experiment.  Python truthiness of the
experiment argument is the parameter `truthy`. -/
def PlotAccessor.init {Exp : Type} (truthy : Exp → Bool) (experiment : Exp) :
    Except PlotError (PlotAccessor Exp) :=
  if !truthy experiment then
    .error (.valueError "Parameter \x27experiment\x27 is None")
  else
    .ok ⟨experiment⟩

/-- Python repr of a list of strings, as f-string interpolation of
list(PLOT_METHODS.keys()) produces it. -/
def pyListRepr (keys : List String) : String :=
  "[" ++ String.intercalate ", " (keys.map (fun k => "\x27" ++ k ++ "\x27")) ++ "]"

/-- The message of the ValueError raised on an unknown kind:
f-string "Plot of kind '{kind}' is not one of {list(PLOT_METHODS.keys())}". -/
def unknownKindMsg {α : Type} (render : α → String) (kind : Val α)
    (keys : List String) : String :=
  "Plot of kind \x27" ++ kind.pyStr render ++ "\x27 is not one of " ++ pyListRepr keys

/-- Embedding of PlotAccessor.__call__: pop "kind" from kwargs with
default "regret"; if kind is not a key of PLOT_METHODS raise ValueError
listing the keys; otherwise call the resolved function on the bound
experiment and the remaining kwargs.  The method mutates no field of
self, which explicit state passing records by returning the accessor
next to the outcome. -/
def PlotAccessor.call {Exp α R : Type} (render : α → String)
    (h : Handlers Exp α R) (self : PlotAccessor Exp) (kwargs : Kwargs α) :
    Except PlotError R × PlotAccessor Exp :=
  let p := dictPop "kind" (Val.str "regret") kwargs
  let kind := p.1
  let kwargs' := p.2
  if !((PLOT_METHODS h).map Prod.fst).any (keyMatches kind) then
    (.error (.valueError (unknownKindMsg render kind ((PLOT_METHODS h).map Prod.fst))), self)
  else
    match dictGet kind (PLOT_METHODS h) with
    | some f => (.ok (f self._experiment kwargs'), self)
    | none => (.error .keyError, self)

/-- Embedding of the convenience method PlotAccessor.lpi:
return self(kind="lpi", **kwargs). -/
def PlotAccessor.lpi {Exp α R : Type} (render : α → String)
    (h : Handlers Exp α R) (self : PlotAccessor Exp) (kwargs : Kwargs α) :
    Except PlotError R × PlotAccessor Exp :=
  self.call render h (("kind", Val.str "lpi") :: kwargs)

/-- Embedding of the convenience method PlotAccessor.parallel_coordinates:
return self(kind="parallel_coordinates", **kwargs). -/
def PlotAccessor.parallel_coordinates {Exp α R : Type} (render : α → String)
    (h : Handlers Exp α R) (self : PlotAccessor Exp) (kwargs : Kwargs α) :
    Except PlotError R × PlotAccessor Exp :=
  self.call render h (("kind", Val.str "parallel_coordinates") :: kwargs)

/-- Embedding of the convenience method PlotAccessor.partial_dependencies:
return self(kind="partial_dependencies", **kwargs). -/
def PlotAccessor.partial_dependencies {Exp α R : Type} (render : α → String)
    (h : Handlers Exp α R) (self : PlotAccessor Exp) (kwargs : Kwargs α) :
    Except PlotError R × PlotAccessor Exp :=
  self.call render h (("kind", Val.str "partial_dependencies") :: kwargs)

/-- Embedding of the convenience method PlotAccessor.regret:
return self(kind="regret", **kwargs). -/
def PlotAccessor.regret {Exp α R : Type} (render : α → String)
    (h : Handlers Exp α R) (self : PlotAccessor Exp) (kwargs : Kwargs α) :
    Except PlotError R × PlotAccessor Exp :=
  self.call render h (("kind", Val.str "regret") :: kwargs)

/-- Generic invocation as the spec words it: invoke the accessor with an
explicit name and the given options, i.e. self(kind=name, **options). -/
def genericInvoke {Exp α R : Type} (render : α → String)
    (h : Handlers Exp α R) (self : PlotAccessor Exp) (name : String)
    (opts : Kwargs α) : Except PlotError R × PlotAccessor Exp :=
  self.call render h (("kind", Val.str name) :: opts)

/-!
Embedding of src/orion/core/cli/db_main.py.  A candidate plugin module
is an object with a name and possibly an add_subparser attribute; the
attribute, when present, is a hook that mutates the shared subparsers
registrar and may raise.  State-passing form: a hook maps the registrar
to the resulting registrar together with an optional raised exception;
the registrar observed at the moment an exception escapes is returned
next to it, so mutations made before the failure survive it.
-/

/-- Candidate module of the namespace: its identity and its optional
add_subparser attribute (hasattr is defined presence of the field). -/
structure PyModule (Reg E : Type) where
  name : String
  add_subparser : Option (Reg → Reg × Option E)

/-- Errors escaping the registration loop: an AttributeError from
getattr on a module without the attribute, or an exception raised by a
hook. -/
inductive CliError (E : Type) where
  | attributeError (moduleName : String)
  | hookError (e : E)
deriving DecidableEq

/-- Modelled from the spec: orion.core.utils.module_import.load_modules_in_path
is not part of the excerpt.  Per the spec, it resolves the namespace to
its candidate modules and evaluates every resolved module against the
capability predicate; modules failing the predicate are silently
excluded, not reported as errors.  Namespace resolution is abstracted as
the list of modules the path resolves to. -/
def load_modules_in_path {Reg E : Type} (resolved : List (PyModule Reg E))
    (pred : PyModule Reg E → Bool) : List (PyModule Reg E) :=
  resolved.filter pred

/-- The loop body of load_modules_parser: for each module, getattr its
add_subparser and invoke it on the shared registrar; an exception stops
the loop and is returned with the registrar state reached so far. -/
def runHooks {Reg E : Type} : List (PyModule Reg E) → Reg → Reg × Option (CliError E)
  | [], r => (r, none)
  | m :: ms, r =>
      match m.add_subparser with
      | none => (r, some (.attributeError m.name))
      | some hook =>
          match hook r with
          | (r', none) => runHooks ms r'
          | (r', some e) => (r', some (.hookError e))

/-- Embedding of load_modules_parser: discover the modules of the
orion.core.cli.db namespace that satisfy hasattr(m, "add_subparser"),
then invoke each discovered add_subparser hook on the subparsers
registrar in order. -/
def load_modules_parser_fn {Reg E : Type} (resolved : List (PyModule Reg E))
    (subparsers : Reg) : Reg × Option (CliError E) :=
  let modules := load_modules_in_path resolved (fun m => m.add_subparser.isSome)
  runHooks modules subparsers

/-- Boolean prefix test on character lists. -/
def isPrefixChars : List Char → List Char → Bool
  | [], _ => true
  | _ :: _, [] => false
  | a :: as, b :: bs => a == b && isPrefixChars as bs

/-- Boolean substring occurrence test on character lists. -/
def subOccurs (pat : List Char) : List Char → Bool
  | [] => pat.isEmpty
  | c :: rest => isPrefixChars pat (c :: rest) || subOccurs pat rest

/-!
Helper lemmas about the dictionary operations and the loop.
-/

/-- Popping a key that heads the list returns its value and the tail. -/
theorem dictPop_cons_self {α : Type} (key : String) (d v : Val α) (rest : Kwargs α) :
    dictPop key d ((key, v) :: rest) = (v, rest) := by
  simp [dictPop]

/-- Popping an absent key returns the default and leaves the dict unchanged. -/
theorem dictPop_of_not_mem {α : Type} (key : String) (d : Val α) (kw : Kwargs α)
    (h : key ∉ kw.map Prod.fst) : dictPop key d kw = (d, kw) := by
  induction kw with
  | nil => rfl
  | cons p rest ih =>
      simp only [List.map_cons, List.mem_cons] at h
      push_neg at h
      have hne : (p.1 == key) = false := by
        simp [beq_eq_false_iff_ne]
        intro he
        exact h.1 (he ▸ rfl)
      obtain ⟨k, v⟩ := p
      simp only [dictPop, hne, if_neg]
      simp [ih h.2]

/-- When the dict keys are duplicate free, the key just popped does not
occur among the remaining keys. -/
theorem dictPop_key_not_mem {α : Type} (key : String) (d : Val α) (kw : Kwargs α)
    (h : (kw.map Prod.fst).Nodup) : key ∉ (dictPop key d kw).2.map Prod.fst := by
  induction kw with
  | nil => simp [dictPop]
  | cons p rest ih =>
      obtain ⟨k, v⟩ := p
      simp only [List.map_cons, List.nodup_cons] at h
      by_cases hk : (k == key) = true
      · have hkey : k = key := by simpa using hk
        simp only [dictPop, hk, if_pos]
        exact hkey ▸ h.1
      · have hk' : (k == key) = false := by simpa using hk
        have hne : key ≠ k := by
          intro he
          exact hk (by simp [he])
        simp only [dictPop, hk', if_neg, Bool.false_eq_true, not_false_iff]
        simp only [List.map_cons, List.mem_cons]
        push_neg
        exact ⟨hne, ih h.2⟩

/-- A successful table lookup means the membership test succeeds. -/
theorem any_of_dictGet_some {α β : Type} (kind : Val α) (l : List (String × β)) (f : β)
    (h : dictGet kind l = some f) : (l.map Prod.fst).any (keyMatches kind) = true := by
  induction l with
  | nil => simp [dictGet] at h
  | cons p rest ih =>
      obtain ⟨k, g⟩ := p
      by_cases hk : keyMatches kind k = true
      · simp [hk]
      · have hk' : keyMatches kind k = false := by simpa using hk
        simp only [dictGet, hk', Bool.false_eq_true, if_neg, not_false_iff] at h
        simp [hk', ih h]

/-- If the probe value is no table key, the membership test fails. -/
theorem any_keyMatches_eq_false {α : Type} (kind : Val α) (keys : List String)
    (h : ∀ s : String, kind = Val.str s → s ∉ keys) :
    keys.any (keyMatches kind) = false := by
  rw [List.any_eq_false]
  intro k hk
  cases kind with
  | str s =>
      have : s ≠ k := fun he => h s rfl (he ▸ hk)
      simp [keyMatches, this]
  | other a => simp [keyMatches]

/-- The accessor call never changes the accessor state. -/
theorem call_snd {Exp α R : Type} (render : α → String) (h : Handlers Exp α R)
    (self : PlotAccessor Exp) (kwargs : Kwargs α) :
    (self.call render h kwargs).2 = self := by
  unfold PlotAccessor.call
  dsimp only
  split
  · rfl
  · split <;> rfl

/-- Running the hooks of a concatenation runs the first block and, when it
raises nothing, continues with the second from the state reached. -/
theorem runHooks_append {Reg E : Type} (pre rest : List (PyModule Reg E)) (r r₁ : Reg)
    (h : runHooks pre r = (r₁, none)) :
    runHooks (pre ++ rest) r = runHooks rest r₁ := by
  induction pre generalizing r with
  | nil =>
      simp only [runHooks] at h
      injection h with h1 h2
      subst h1
      simp
  | cons m ms ih =>
      simp only [runHooks] at h ⊢
      cases hm : m.add_subparser with
      | none => simp [hm] at h
      | some hook =>
          simp only [hm] at h ⊢
          cases hh : hook r with
          | mk r' e? =>
              cases e? with
              | none =>
                  simp only [hh] at h ⊢
                  exact ih r' h
              | some e => simp [hh] at h

/-- Appending strings concatenates their character lists. -/
theorem string_data_append (s t : String) : (s ++ t).data = s.data ++ t.data := by
  cases s
  cases t
  rfl

/-- A substring of the right part occurs in the concatenation. -/
theorem subOccurs_append_left (pat l₁ l₂ : List Char) (h : subOccurs pat l₂ = true) :
    subOccurs pat (l₁ ++ l₂) = true := by
  induction l₁ with
  | nil => simpa using h
  | cons c cs ih =>
      simp only [List.cons_append, subOccurs, Bool.or_eq_true]
      exact Or.inr ih

/-!
Concrete instances used by the witnesses.
-/

/-- Concrete handlers over natural numbers, for witnesses. -/
def demoHandlers : Handlers Nat Nat Nat :=
  ⟨fun e kw => e + kw.length,
   fun e kw => e + 10 * kw.length,
   fun e _ => e * 3,
   fun e kw => e * 2 + kw.length⟩

/-- A second, observably different set of concrete handlers. -/
def demoHandlers2 : Handlers Nat Nat Nat :=
  ⟨fun e _ => e + 100,
   fun e _ => e + 200,
   fun e _ => e + 300,
   fun e _ => e + 400⟩

/-- Concrete renderer of opaque option values, for witnesses. -/
def demoRender : Nat → String := fun _ => "obj"

/-!
The claims.
-/

/-- C1: constructing a PlotAccessor with a falsy experiment raises
ValueError("Parameter 'experiment' is None") at construction time, and
for every truthy experiment construction succeeds and binds exactly that
experiment in the _experiment field. -/
theorem plotAccessor_init_requires_experiment {Exp : Type} (truthy : Exp → Bool) (e : Exp) :
    (truthy e = false →
      PlotAccessor.init truthy e =
        .error (.valueError "Parameter \x27experiment\x27 is None")) ∧
    (truthy e = true → PlotAccessor.init truthy e = .ok ⟨e⟩) := by
  constructor <;> intro h <;> simp [PlotAccessor.init, h]

/-- Witness for C1 at a falsy and at a truthy concrete subject. -/
theorem plotAccessor_init_requires_experiment_witness :
    PlotAccessor.init (fun _ : Nat => false) 0 =
      .error (.valueError "Parameter \x27experiment\x27 is None") ∧
    PlotAccessor.init (fun _ : Nat => true) 7 = .ok ⟨7⟩ :=
  ⟨(plotAccessor_init_requires_experiment (fun _ : Nat => false) 0).1 rfl,
   (plotAccessor_init_requires_experiment (fun _ : Nat => true) 7).2 rfl⟩

/-- C3: when the options carry no "kind" key, the call pops the default
kind "regret" and the outcome coincides with the call whose options name
kind "regret" explicitly. -/
theorem plotAccessor_call_default_kind_regret {Exp α R : Type} (render : α → String)
    (h : Handlers Exp α R) (self : PlotAccessor Exp) (kwargs : Kwargs α)
    (hk : "kind" ∉ kwargs.map Prod.fst) :
    dictPop "kind" (Val.str "regret") kwargs = (Val.str "regret", kwargs) ∧
    self.call render h kwargs = self.call render h (("kind", Val.str "regret") :: kwargs) := by
  have hpop := dictPop_of_not_mem "kind" (Val.str "regret") kwargs hk
  refine ⟨hpop, ?_⟩
  unfold PlotAccessor.call
  rw [hpop, dictPop_cons_self]

/-- Witness for C3 on concrete options without a kind key. -/
theorem plotAccessor_call_default_kind_regret_witness :
    dictPop "kind" (Val.str "regret") [("x", Val.other 2)] = (Val.str "regret", [("x", Val.other 2)]) ∧
    PlotAccessor.call demoRender demoHandlers ⟨5⟩ [("x", Val.other 2)] =
      PlotAccessor.call demoRender demoHandlers ⟨5⟩ [("kind", Val.str "regret"), ("x", Val.other 2)] :=
  plotAccessor_call_default_kind_regret demoRender demoHandlers ⟨5⟩ [("x", Val.other 2)] (by decide)

/-- C5: the dispatch table has exactly the four entries lpi,
parallel_coordinates, partial_dependencies and regret, and each of the
four convenience methods agrees with the generic invocation carrying
that entry as its name and the same options. -/
theorem plotAccessor_convenience_methods_equiv {Exp α R : Type} (render : α → String)
    (h : Handlers Exp α R) (self : PlotAccessor Exp) (kwargs : Kwargs α) :
    (PLOT_METHODS h).map Prod.fst =
      ["lpi", "parallel_coordinates", "partial_dependencies", "regret"] ∧
    self.lpi render h kwargs = genericInvoke render h self "lpi" kwargs ∧
    self.parallel_coordinates render h kwargs =
      genericInvoke render h self "parallel_coordinates" kwargs ∧
    self.partial_dependencies render h kwargs =
      genericInvoke render h self "partial_dependencies" kwargs ∧
    self.regret render h kwargs = genericInvoke render h self "regret" kwargs :=
  ⟨rfl, rfl, rfl, rfl, rfl⟩

/-- C10: the call leaves the bound experiment untouched, whatever the
outcome, and the accessor stays usable: a further call behaves exactly
as a call on the original accessor. -/
theorem plotAccessor_call_preserves_experiment {Exp α R : Type} (render : α → String)
    (h : Handlers Exp α R) (self : PlotAccessor Exp) (kwargs k2 : Kwargs α) :
    ((self.call render h kwargs).2)._experiment = self._experiment ∧
    ((self.call render h kwargs).2).call render h k2 = self.call render h k2 := by
  rw [call_snd]
  exact ⟨rfl, rfl⟩

/-- Every table key occurs in the unknown-kind message, whatever the
rejected kind was. -/
theorem subOccurs_unknownKindMsg {α : Type} (render : α → String) (kind : Val α)
    (k : String)
    (hk : subOccurs k.data
      (pyListRepr ["lpi", "parallel_coordinates", "partial_dependencies", "regret"]).data = true) :
    subOccurs k.data
      (unknownKindMsg render kind
        ["lpi", "parallel_coordinates", "partial_dependencies", "regret"]).data = true := by
  unfold unknownKindMsg
  rw [string_data_append]
  exact subOccurs_append_left _ _ _ hk

/-- C2: when the popped kind is no key of the dispatch table, the call
raises the ValueError whose message names the kind and the full key
list, every table key occurs verbatim in that message, and no handler
runs: the outcome does not depend on the handlers at all. -/
theorem plotAccessor_call_unknown_kind_rejected {Exp α R : Type} (render : α → String)
    (h h2 : Handlers Exp α R) (self : PlotAccessor Exp) (kwargs : Kwargs α)
    (hno : ∀ s : String, (dictPop "kind" (Val.str "regret") kwargs).1 = Val.str s →
      s ∉ (PLOT_METHODS h).map Prod.fst) :
    self.call render h kwargs =
      (.error (.valueError (unknownKindMsg render (dictPop "kind" (Val.str "regret") kwargs).1
        ((PLOT_METHODS h).map Prod.fst))), self) ∧
    self.call render h kwargs = self.call render h2 kwargs ∧
    ((PLOT_METHODS h).map Prod.fst).all (fun k => subOccurs k.data
      (unknownKindMsg render (dictPop "kind" (Val.str "regret") kwargs).1
        ((PLOT_METHODS h).map Prod.fst)).data) = true := by
  have hany : ((PLOT_METHODS h).map Prod.fst).any
      (keyMatches (dictPop "kind" (Val.str "regret") kwargs).1) = false :=
    any_keyMatches_eq_false _ _ hno
  have h1 : self.call render h kwargs =
      (.error (.valueError (unknownKindMsg render (dictPop "kind" (Val.str "regret") kwargs).1
        ((PLOT_METHODS h).map Prod.fst))), self) := by
    unfold PlotAccessor.call
    dsimp only
    rw [hany]
    simp
  have h1b : self.call render h2 kwargs =
      (.error (.valueError (unknownKindMsg render (dictPop "kind" (Val.str "regret") kwargs).1
        ((PLOT_METHODS h2).map Prod.fst))), self) := by
    have hany2 : ((PLOT_METHODS h2).map Prod.fst).any
        (keyMatches (dictPop "kind" (Val.str "regret") kwargs).1) = false := hany
    unfold PlotAccessor.call
    dsimp only
    rw [hany2]
    simp
  refine ⟨h1, by rw [h1, h1b]; rfl, ?_⟩
  have hkeys : (PLOT_METHODS h).map Prod.fst =
      ["lpi", "parallel_coordinates", "partial_dependencies", "regret"] := rfl
  rw [hkeys]
  simp only [List.all_cons, List.all_nil, Bool.and_eq_true]
  refine ⟨?_, ?_, ?_, ?_, trivial⟩ <;> exact subOccurs_unknownKindMsg render _ _ (by decide)

/-- Witness for C2 at the concrete unknown kind "nonexistent". -/
theorem plotAccessor_call_unknown_kind_rejected_witness :
    PlotAccessor.call demoRender demoHandlers ⟨5⟩ [("kind", Val.str "nonexistent")] =
      (.error (.valueError (unknownKindMsg demoRender
        (dictPop "kind" (Val.str "regret") [("kind", Val.str "nonexistent")]).1
        ((PLOT_METHODS demoHandlers).map Prod.fst))), ⟨5⟩) ∧
    PlotAccessor.call demoRender demoHandlers ⟨5⟩ [("kind", Val.str "nonexistent")] =
      PlotAccessor.call demoRender demoHandlers2 ⟨5⟩ [("kind", Val.str "nonexistent")] ∧
    ((PLOT_METHODS demoHandlers).map Prod.fst).all (fun k => subOccurs k.data
      (unknownKindMsg demoRender
        (dictPop "kind" (Val.str "regret") [("kind", Val.str "nonexistent")]).1
        ((PLOT_METHODS demoHandlers).map Prod.fst)).data) = true :=
  plotAccessor_call_unknown_kind_rejected demoRender demoHandlers demoHandlers2 ⟨5⟩
    [("kind", Val.str "nonexistent")]
    (by
      intro s hs
      have h2 : "nonexistent" = s := by simpa [dictPop] using hs
      subst h2
      decide)

/-- C4: for a name that resolves in the dispatch table, the call with
that name and any options returns exactly the resolved function applied
to the bound experiment and those options: pass-through with no
post-processing and no extra keys. -/
theorem plotAccessor_call_forwards_to_handler {Exp α R : Type} (render : α → String)
    (h : Handlers Exp α R) (self : PlotAccessor Exp) (name : String) (opts : Kwargs α)
    (f : Exp → Kwargs α → R)
    (hres : dictGet (Val.str name : Val α) (PLOT_METHODS h) = some f)
    (_hk : "kind" ∉ opts.map Prod.fst) :
    self.call render h (("kind", Val.str name) :: opts) =
      (.ok (f self._experiment opts), self) := by
  have hany := any_of_dictGet_some (Val.str name : Val α) (PLOT_METHODS h) f hres
  unfold PlotAccessor.call
  rw [dictPop_cons_self]
  dsimp only
  rw [hany, hres]
  simp

/-- Witness for C4 at name "regret" with one concrete option. -/
theorem plotAccessor_call_forwards_to_handler_witness :
    PlotAccessor.call demoRender demoHandlers ⟨5⟩ [("kind", Val.str "regret"), ("x", Val.other 2)] =
      (.ok (demoHandlers.regret 5 [("x", Val.other 2)]), ⟨5⟩) :=
  plotAccessor_call_forwards_to_handler demoRender demoHandlers ⟨5⟩ "regret"
    [("x", Val.other 2)] demoHandlers.regret rfl (by decide)

/-- C9: the "kind" key is removed before forwarding: with duplicate-free
keyword keys, the remaining options hold no "kind" binding and a
successful dispatch applies the resolved function to exactly the bound
experiment and those remaining options. -/
theorem plotAccessor_call_strips_kind_key {Exp α R : Type} (render : α → String)
    (h : Handlers Exp α R) (self : PlotAccessor Exp) (kwargs : Kwargs α)
    (kind : Val α) (rest : Kwargs α) (f : Exp → Kwargs α → R)
    (hnd : (kwargs.map Prod.fst).Nodup)
    (hpop : dictPop "kind" (Val.str "regret") kwargs = (kind, rest))
    (hget : dictGet kind (PLOT_METHODS h) = some f) :
    "kind" ∉ rest.map Prod.fst ∧
    self.call render h kwargs = (.ok (f self._experiment rest), self) := by
  constructor
  · have hmem := dictPop_key_not_mem "kind" (Val.str "regret") kwargs hnd
    rw [hpop] at hmem
    exact hmem
  · have hany := any_of_dictGet_some kind (PLOT_METHODS h) f hget
    unfold PlotAccessor.call
    rw [hpop]
    dsimp only
    rw [hany, hget]
    simp

/-- Witness for C9 on concrete keyword arguments holding a kind and one
further option. -/
theorem plotAccessor_call_strips_kind_key_witness :
    "kind" ∉ ([("x", Val.other 3)] : Kwargs Nat).map Prod.fst ∧
    PlotAccessor.call demoRender demoHandlers ⟨5⟩ [("kind", Val.str "lpi"), ("x", Val.other 3)] =
      (.ok (demoHandlers.lpi 5 [("x", Val.other 3)]), ⟨5⟩) :=
  plotAccessor_call_strips_kind_key demoRender demoHandlers ⟨5⟩
    [("kind", Val.str "lpi"), ("x", Val.other 3)] (Val.str "lpi") [("x", Val.other 3)]
    demoHandlers.lpi (by decide) rfl rfl

/-- Concrete module whose hook appends a tag, for witnesses. -/
def modGood : PyModule (List String) String :=
  ⟨"good", some (fun r => (r ++ ["good"], none))⟩

/-- Concrete module without the add_subparser attribute, for witnesses. -/
def modBad : PyModule (List String) String := ⟨"bad", none⟩

/-- Concrete module whose hook mutates the registrar and then raises,
for witnesses. -/
def modBoom : PyModule (List String) String :=
  ⟨"boom", some (fun r => (r ++ ["boom"], some "boom failed"))⟩

/-- Concrete module placed after the failing one, for witnesses. -/
def modAfter : PyModule (List String) String :=
  ⟨"after", some (fun r => (r ++ ["after"], none))⟩

/-- C6: discovery keeps exactly the modules possessing the
add_subparser attribute: every discovered module satisfies the
predicate, and a module without the attribute changes nothing, raises
nothing and is never reached by the registration loop, wherever it sits
among the resolved modules. -/
theorem load_modules_predicate_soundness {Reg E : Type}
    (resolved pre post : List (PyModule Reg E)) (m : PyModule Reg E) (r : Reg)
    (hm : m.add_subparser = none) :
    (load_modules_in_path resolved (fun x => x.add_subparser.isSome)).all
      (fun x => x.add_subparser.isSome) = true ∧
    load_modules_in_path (pre ++ m :: post) (fun x => x.add_subparser.isSome) =
      load_modules_in_path (pre ++ post) (fun x => x.add_subparser.isSome) ∧
    load_modules_parser_fn (pre ++ m :: post) r = load_modules_parser_fn (pre ++ post) r := by
  have hfilter : ∀ l l2 : List (PyModule Reg E),
      load_modules_in_path (l ++ m :: l2) (fun x => x.add_subparser.isSome) =
        load_modules_in_path (l ++ l2) (fun x => x.add_subparser.isSome) := by
    intro l l2
    simp [load_modules_in_path, List.filter_append, List.filter_cons, hm]
  refine ⟨?_, hfilter pre post, ?_⟩
  · rw [List.all_eq_true]
    intro x hx
    exact (List.mem_filter.mp hx).2
  · unfold load_modules_parser_fn
    rw [hfilter pre post]

/-- Witness for C6: a module without the attribute sitting between two
qualifying modules is excluded and the loop result is unchanged. -/
theorem load_modules_predicate_soundness_witness :
    (load_modules_in_path [modGood, modBad, modAfter]
      (fun x => x.add_subparser.isSome)).all (fun x => x.add_subparser.isSome) = true ∧
    load_modules_in_path ([modGood] ++ modBad :: [modAfter])
      (fun x => x.add_subparser.isSome) =
      load_modules_in_path ([modGood] ++ [modAfter]) (fun x => x.add_subparser.isSome) ∧
    load_modules_parser_fn ([modGood] ++ modBad :: [modAfter]) [] =
      load_modules_parser_fn ([modGood] ++ [modAfter]) [] :=
  load_modules_predicate_soundness [modGood, modBad, modAfter] [modGood] [modAfter]
    modBad [] rfl

/-- C7: registration is fail-fast: when the hook of the discovered
candidate at position i raises, the loop returns that exception, keeps
every registrar mutation the earlier candidates and the failing hook
made, and the candidates after position i never run, whatever they
are. -/
theorem load_modules_hook_failure_fail_fast {Reg E : Type}
    (resolved : List (PyModule Reg E)) (r r₁ r₂ : Reg)
    (pre post : List (PyModule Reg E)) (m : PyModule Reg E)
    (hook : Reg → Reg × Option E) (e : E)
    (hdisc : load_modules_in_path resolved (fun x => x.add_subparser.isSome) =
      pre ++ m :: post)
    (hpre : runHooks pre r = (r₁, none))
    (hm : m.add_subparser = some hook)
    (hhook : hook r₁ = (r₂, some e)) :
    load_modules_parser_fn resolved r = (r₂, some (.hookError e)) := by
  unfold load_modules_parser_fn
  rw [hdisc, runHooks_append pre (m :: post) r r₁ hpre]
  simp [runHooks, hm, hhook]

/-- Witness for C7: the hook of the second discovered module raises;
the loop stops there with the mutations of the first module and of the
failing hook kept, and the third module never runs. -/
theorem load_modules_hook_failure_fail_fast_witness :
    load_modules_parser_fn [modGood, modBoom, modAfter] [] =
      (["good", "boom"], some (.hookError "boom failed")) :=
  load_modules_hook_failure_fail_fast [modGood, modBoom, modAfter] [] ["good"]
    ["good", "boom"] [modGood] [modAfter] modBoom
    (fun r => (r ++ ["boom"], some "boom failed")) "boom failed" rfl rfl rfl rfl

/-- C8: a namespace with zero qualifying candidates discovers the empty
sequence rather than an error, and the registration loop then finishes
without an exception and leaves the registrar untouched. -/
theorem load_modules_empty_discovery {Reg E : Type}
    (resolved : List (PyModule Reg E)) (r : Reg)
    (h : ∀ m ∈ resolved, m.add_subparser.isSome = false) :
    load_modules_in_path resolved (fun x => x.add_subparser.isSome) = [] ∧
    load_modules_parser_fn resolved r = (r, none) := by
  have hempty : load_modules_in_path resolved (fun x => x.add_subparser.isSome) = [] := by
    unfold load_modules_in_path
    rw [List.filter_eq_nil_iff]
    intro a ha
    simp [h a ha]
  refine ⟨hempty, ?_⟩
  unfold load_modules_parser_fn
  rw [hempty]
  rfl

/-- Witness for C8 on a namespace resolving to one module without the
attribute. -/
theorem load_modules_empty_discovery_witness :
    load_modules_in_path [modBad] (fun x => x.add_subparser.isSome) = [] ∧
    load_modules_parser_fn [modBad] ["seed"] = (["seed"], none) :=
  load_modules_empty_discovery [modBad] ["seed"] (by decide)
